import Mathlib

/-!
Verification of the authentication and credential-lifecycle subsystem of the
Moderndesignba REST API (src/src/controllers/users/usersControllers.js and the
profile controller), as a shallow embedding in Lean 4.

Modelling conventions:
 - The document database is a list of user accounts; Mongo ObjectIds are
   represented by natural numbers (every modelled id is well formed, so the
   mongoose.Types.ObjectId.isValid guard branches are not reachable in the
   embedding and are omitted).
 - Timestamps are natural numbers (milliseconds, as produced by Date.now()).
 - Request fields arrive as Option String; a missing field is none, and the
   JavaScript falsiness test on a field also rejects the empty string, which
   the helper strPresent captures.
 - bcryptjs and jsonwebtoken are external collaborators; they are modelled by
   deterministic stand-ins that keep the properties the handlers rely on:
   a bcrypt digest is a tagged string distinct from every plaintext, and a
   JSON web token is a signed triple of subject, secret and expiry whose
   verification reports ok, expired, or malformed exactly as jwt.verify does
   (TokenExpiredError and JsonWebTokenError).
 - Outbound email is a collaborator that either succeeds or throws; each
   handler that awaits a send takes a Boolean mailOk for that outcome.
-/

namespace ModernDesign

/-- Model of a JSON web token as handled by the jsonwebtoken collaborator:
either a token signed with some secret, carrying the subject id and an
expiry instant, or an arbitrary string that is not a well-formed token. -/
inductive TokenInput where
  | signed (subject : Nat) (secret : String) (expiresAt : Nat)
  | garbage (s : String)
deriving DecidableEq, Repr

/-- Outcome of jwt.verify: success with the decoded subject id,
TokenExpiredError, or JsonWebTokenError (malformed or wrong signature). -/
inductive VerifyOutcome where
  | ok (subject : Nat)
  | expiredError
  | jsonWebTokenError
deriving DecidableEq, Repr

/-- Model of jwt.verify(token, secret): a malformed token or a wrong secret
raises JsonWebTokenError, an expiry at or before the current instant raises
TokenExpiredError, otherwise the subject claim is returned. -/
def jwtVerify (t : TokenInput) (secret : String) (now : Nat) : VerifyOutcome :=
  match t with
  | .garbage _ => .jsonWebTokenError
  | .signed sub sec exp =>
      if sec ≠ secret then .jsonWebTokenError
      else if exp ≤ now then .expiredError
      else .ok sub

/-- Model of process.env.JWT_SECRET. -/
def JWT_SECRET : String := "jwt-secret"

/-- Model of process.env.REFRESH_TOKEN_SECRET. -/
def REFRESH_TOKEN_SECRET : String := "refresh-token-secret"

/-- Model of process.env.RESET_TOKEN_SECRET. -/
def RESET_TOKEN_SECRET : String := "reset-token-secret"

/-- Model of generateAccessToken: jwt.sign({id}, JWT_SECRET, 15 minutes). -/
def generateAccessToken (userId : Nat) (now : Nat) : TokenInput :=
  .signed userId JWT_SECRET (now + 15 * 60 * 1000)

/-- Model of generateRefreshToken: jwt.sign({id}, REFRESH_TOKEN_SECRET, 7 days). -/
def generateRefreshToken (userId : Nat) (now : Nat) : TokenInput :=
  .signed userId REFRESH_TOKEN_SECRET (now + 7 * 24 * 60 * 60 * 1000)

/-- Model of the bcryptjs hash: a digest is a format-tagged string derived
from the plaintext. The tag reflects the real bcrypt output format prefix,
which makes a digest never equal to the plaintext it hashes. -/
def bcryptHash (pw : String) : String := "$2b$12$" ++ pw

/-- Model of bcrypt.compare: the comparison succeeds exactly when the stored
digest is the hash of the candidate plaintext. -/
def bcryptCompare (pw stored : String) : Bool := stored == bcryptHash pw

/-- UserAccount record, following the mongoose user schema: email, bcrypt
password digest, fullName, role, isEmailVerified, the optional verification
and reset token fields with their optional expiries, and timestamps. -/
structure UserAccount where
  id : Nat
  email : String
  password : String
  fullName : String
  role : String
  isEmailVerified : Bool
  emailVerificationToken : Option String
  emailVerificationExpires : Option Nat
  passwordResetToken : Option TokenInput
  passwordResetExpires : Option Nat
  createdAt : Nat
  updatedAt : Nat
deriving DecidableEq, Repr

/-- The user collection of the document store. -/
abbrev UserDb := List UserAccount

/-- Model of User.findOne({email}). -/
def findOneByEmail (db : UserDb) (email : String) : Option UserAccount :=
  db.find? (fun u => u.email == email)

/-- Model of User.findById(id). -/
def findById (db : UserDb) (id : Nat) : Option UserAccount :=
  db.find? (fun u => u.id == id)

/-- Model of user.save(): the mutated document replaces every stored
document carrying its id. -/
def saveUser (db : UserDb) (u : UserAccount) : UserDb :=
  db.map (fun v => if v.id == u.id then u else v)

/-- JavaScript truthiness of an optional request string: absent and empty
strings are falsy. -/
def strPresent (s : Option String) : Bool :=
  match s with
  | none => false
  | some v => v ≠ ""

/-- Effect of a handler on the refreshToken cookie: untouched, set to a new
token, or cleared. -/
inductive CookieEffect where
  | keep
  | set (t : TokenInput)
  | clear
deriving DecidableEq, Repr

/-- JSON response as the handlers build it: HTTP status, the success flag,
the message when one is sent, whether a user object is included in data,
and the access token when one is returned in the body. -/
structure ApiResponse where
  status : Nat
  success : Bool
  message : Option String := none
  hasUserPayload : Bool := false
  accessToken : Option TokenInput := none
deriving DecidableEq, Repr

/-- Result of running a handler: the JSON response, the cookie effect, and
the user collection after the handler ran. -/
structure HandlerOutcome where
  resp : ApiResponse
  cookie : CookieEffect := .keep
  db : UserDb
deriving DecidableEq, Repr

/-- Lookup predicate of the verifyEmail controller: the stored document
must carry the given email, the given emailVerificationToken, and an
emailVerificationExpires strictly greater than now. -/
def verifyEmailMatch (token email : String) (now : Nat) (u : UserAccount) : Bool :=
  u.email == email &&
  u.emailVerificationToken == some token &&
  (match u.emailVerificationExpires with
   | some e => decide (now < e)
   | none => false)

/-- Mutation applied by the verifyEmail controller on a match: the account
is marked verified and both verification fields are cleared. -/
def verifiedUserOf (u : UserAccount) : UserAccount :=
  { u with isEmailVerified := true,
           emailVerificationToken := none,
           emailVerificationExpires := none }

/-- Model of the verifyEmail controller (GET /auth/verify-email). On a
match the account is marked verified and both verification fields are
cleared; the welcome email is fire-and-forget and cannot change the
response. -/
def verifyEmail (db : UserDb) (token email : Option String) (now : Nat) :
    HandlerOutcome :=
  if ¬ (strPresent token ∧ strPresent email) then
    { resp := { status := 400, success := false,
                message := some "Missing token or email" }, db := db }
  else
    match db.find? (verifyEmailMatch (token.getD "") (email.getD "") now) with
    | none =>
        { resp := { status := 400, success := false,
                    message := some "Invalid or expired verification token" },
          db := db }
    | some u =>
        { resp := { status := 200, success := true,
                    message := some "Email verified successfully. You can now log in." },
          db := saveUser db (verifiedUserOf u) }

/-- Model of the login controller (POST /auth/login). The unverified check
runs before the bcrypt comparison; an unknown email and a wrong password
share the same invalid-credentials response. -/
def login (db : UserDb) (email password : Option String) (now : Nat) :
    HandlerOutcome :=
  if ¬ (strPresent email ∧ strPresent password) then
    { resp := { status := 400, success := false,
                message := some "Email and password are required" }, db := db }
  else
    match findOneByEmail db (email.getD "") with
    | none =>
        { resp := { status := 401, success := false,
                    message := some "Invalid credentials" }, db := db }
    | some u =>
        if ¬ u.isEmailVerified then
          { resp := { status := 401, success := false,
                      message := some "Please verify your email address before logging in" },
            db := db }
        else if ¬ bcryptCompare (password.getD "") u.password then
          { resp := { status := 401, success := false,
                      message := some "Invalid credentials" }, db := db }
        else
          { resp := { status := 200, success := true,
                      hasUserPayload := true,
                      accessToken := some (generateAccessToken u.id now) },
            cookie := .set (generateRefreshToken u.id now),
            db := db }

/-- Account document created by User.create in the signup controller: role
defaults to user, the account starts unverified with the fresh verification
token and a 24 hour expiry, and the password is stored hashed. -/
def signupNewUser (email password fullName : String) (now : Nat)
    (freshToken : String) (freshId : Nat) : UserAccount :=
  { id := freshId,
    email := email,
    password := bcryptHash password,
    fullName := fullName,
    role := "user",
    isEmailVerified := false,
    emailVerificationToken := some freshToken,
    emailVerificationExpires := some (now + 24 * 60 * 60 * 1000),
    passwordResetToken := none,
    passwordResetExpires := none,
    createdAt := now, updatedAt := now }

/-- Model of the signup controller (POST /auth/signup). Fresh data produced
during the call is passed in: freshToken models generateEmailVerificationToken
(crypto.randomBytes(32).toString(hex)) and freshId the id the store assigns.
The verification email is fire-and-forget, so its outcome does not appear. -/
def signup (db : UserDb) (email password confirmPassword fullName : Option String)
    (now : Nat) (freshToken : String) (freshId : Nat) : HandlerOutcome :=
  if ¬ (strPresent email ∧ strPresent password ∧
        strPresent confirmPassword ∧ strPresent fullName) then
    { resp := { status := 400, success := false,
                message := some "All fields are required" }, db := db }
  else if password ≠ confirmPassword then
    { resp := { status := 400, success := false,
                message := some "Passwords do not match" }, db := db }
  else if (password.getD "").length < 8 then
    { resp := { status := 400, success := false,
                message := some "Password must be at least 8 characters" }, db := db }
  else
    match findOneByEmail db (email.getD "") with
    | some _ =>
        { resp := { status := 409, success := false,
                    message := some "Email already exists" }, db := db }
    | none =>
        let u := signupNewUser (email.getD "") (password.getD "")
          (fullName.getD "") now freshToken freshId
        { resp := { status := 201, success := true,
                    message := some "User created successfully. Please check your email to verify your account.",
                    hasUserPayload := true },
          db := db ++ [u] }

/-- Model of the admin createUser controller. express-validator runs before
the handler body; its verdict is the validationOk argument. On a duplicate
email the handler replies 400, not 409. The destructuring defaults of the
handler (role student, isEmailVerified false) are supplied by the caller. -/
def createUser (db : UserDb) (validationOk : Bool)
    (fullName email password : String) (role : String)
    (isEmailVerified : Bool) (now : Nat) (freshId : Nat) :
    HandlerOutcome :=
  if ¬ validationOk then
    { resp := { status := 400, success := false,
                message := some "Validation failed" }, db := db }
  else
    match findOneByEmail db email with
    | some _ =>
        { resp := { status := 400, success := false,
                    message := some "User with this email already exists" }, db := db }
    | none =>
        let u : UserAccount :=
          { id := freshId, email := email,
            password := bcryptHash password,
            fullName := fullName, role := role,
            isEmailVerified := isEmailVerified,
            emailVerificationToken := none,
            emailVerificationExpires := none,
            passwordResetToken := none,
            passwordResetExpires := none,
            createdAt := now, updatedAt := now }
        { resp := { status := 201, success := true,
                    message := some "User created successfully",
                    hasUserPayload := true },
          db := db ++ [u] }

/-- Model of the refreshToken controller (POST /auth/refresh-token).
cookieToken is req.cookies.refreshToken. jwt.verify throws into the catch
block, which clears the cookie before mapping TokenExpiredError and
JsonWebTokenError to 401; an unknown subject also clears the cookie and
replies 401; success rotates both tokens. -/
def refreshTokenHandler (db : UserDb) (cookieToken : Option TokenInput)
    (now : Nat) : HandlerOutcome :=
  match cookieToken with
  | none =>
      { resp := { status := 401, success := false,
                  message := some "No refresh token provided" }, db := db }
  | some t =>
      match jwtVerify t REFRESH_TOKEN_SECRET now with
      | .expiredError =>
          { resp := { status := 401, success := false,
                      message := some "Refresh token expired" },
            cookie := .clear, db := db }
      | .jsonWebTokenError =>
          { resp := { status := 401, success := false,
                      message := some "Invalid refresh token" },
            cookie := .clear, db := db }
      | .ok sub =>
          match findById db sub with
          | none =>
              { resp := { status := 401, success := false,
                          message := some "User not found" },
                cookie := .clear, db := db }
          | some u =>
              { resp := { status := 200, success := true,
                          accessToken := some (generateAccessToken u.id now) },
                cookie := .set (generateRefreshToken u.id now),
                db := db }

/-- Model of the resendVerificationEmail controller. The new token and
expiry are saved before the email is awaited, so the store is updated even
when the send fails; mailOk is the outcome of sendVerificationEmail. -/
def resendVerificationEmail (db : UserDb) (email : Option String) (now : Nat)
    (freshToken : String) (mailOk : Bool) : HandlerOutcome :=
  if ¬ strPresent email then
    { resp := { status := 400, success := false,
                message := some "Email is required" }, db := db }
  else
    match findOneByEmail db (email.getD "") with
    | none =>
        { resp := { status := 404, success := false,
                    message := some "User not found" }, db := db }
    | some u =>
        if u.isEmailVerified then
          { resp := { status := 400, success := false,
                      message := some "Email is already verified" }, db := db }
        else
          let u2 := { u with
            emailVerificationToken := some freshToken,
            emailVerificationExpires := some (now + 24 * 60 * 60 * 1000) }
          let db2 := saveUser db u2
          if mailOk then
            { resp := { status := 200, success := true,
                        message := some "Verification email sent successfully" },
              db := db2 }
          else
            { resp := { status := 500, success := false,
                        message := some "Failed to send verification email. Please try again later." },
              db := db2 }

/-- Model of the forgotPassword controller (POST /auth/forgot-password).
An unknown email gets the generic 200 immediately; a known account gets a
signed one-hour reset token stored with its expiry, then the reset email is
awaited: a send failure surfaces as 500 (the token stays stored). -/
def forgotPassword (db : UserDb) (email : Option String) (now : Nat)
    (mailOk : Bool) : HandlerOutcome :=
  if ¬ strPresent email then
    { resp := { status := 400, success := false,
                message := some "Email is required" }, db := db }
  else
    match findOneByEmail db (email.getD "") with
    | none =>
        { resp := { status := 200, success := true,
                    message := some "If an account with that email exists, a password reset link has been sent" },
          db := db }
    | some u =>
        let resetToken : TokenInput :=
          .signed u.id RESET_TOKEN_SECRET (now + 3600000)
        let u2 := { u with
          passwordResetToken := some resetToken,
          passwordResetExpires := some (now + 3600000) }
        let db2 := saveUser db u2
        if mailOk then
          { resp := { status := 200, success := true,
                      message := some "If an account with that email exists, a password reset link has been sent" },
            db := db2 }
        else
          { resp := { status := 500, success := false,
                      message := some "Failed to send password reset email. Please try again later." },
            db := db2 }

/-- Match predicate shared by verifyResetToken and resetPassword: the stored
document must carry the decoded id, the same stored token, and a reset
expiry strictly greater than now. -/
def resetTokenMatches (sub : Nat) (t : TokenInput) (now : Nat)
    (u : UserAccount) : Bool :=
  u.id == sub &&
  u.passwordResetToken == some t &&
  (match u.passwordResetExpires with
   | some e => decide (now < e)
   | none => false)

/-- Model of the verifyResetToken controller (GET /auth/verify-reset-token).
jwt.verify distinguishes an expired token from a malformed one in the catch
block; a verified token that matches no stored document gets the generic
message. -/
def verifyResetToken (db : UserDb) (token : Option TokenInput) (now : Nat) :
    HandlerOutcome :=
  match token with
  | none =>
      { resp := { status := 400, success := false,
                  message := some "Reset token is required" }, db := db }
  | some t =>
      match jwtVerify t RESET_TOKEN_SECRET now with
      | .expiredError =>
          { resp := { status := 400, success := false,
                      message := some "Reset token has expired" }, db := db }
      | .jsonWebTokenError =>
          { resp := { status := 400, success := false,
                      message := some "Invalid reset token" }, db := db }
      | .ok sub =>
          match db.find? (resetTokenMatches sub t now) with
          | none =>
              { resp := { status := 400, success := false,
                          message := some "Invalid or expired reset token" }, db := db }
          | some _ =>
              { resp := { status := 200, success := true,
                          message := some "Reset token is valid" }, db := db }

/-- Model of the resetPassword controller (POST /auth/reset-password).
Field and confirmation checks come first, then jwt.verify with the same
catch-block mapping as verifyResetToken, then the stored-token match; on
success the password is rehashed and both reset fields are cleared (the
confirmation email is best effort and cannot change the response). -/
def resetPassword (db : UserDb)
    (token : Option TokenInput) (newPassword confirmPassword : Option String)
    (now : Nat) : HandlerOutcome :=
  if ¬ (token.isSome ∧ strPresent newPassword ∧ strPresent confirmPassword) then
    { resp := { status := 400, success := false,
                message := some "All fields are required" }, db := db }
  else if newPassword ≠ confirmPassword then
    { resp := { status := 400, success := false,
                message := some "Passwords do not match" }, db := db }
  else if (newPassword.getD "").length < 8 then
    { resp := { status := 400, success := false,
                message := some "Password must be at least 8 characters" }, db := db }
  else
    match token with
    | none =>
        { resp := { status := 400, success := false,
                    message := some "All fields are required" }, db := db }
    | some t =>
        match jwtVerify t RESET_TOKEN_SECRET now with
        | .expiredError =>
            { resp := { status := 400, success := false,
                        message := some "Reset token has expired" }, db := db }
        | .jsonWebTokenError =>
            { resp := { status := 400, success := false,
                        message := some "Invalid reset token" }, db := db }
        | .ok sub =>
            match db.find? (resetTokenMatches sub t now) with
            | none =>
                { resp := { status := 400, success := false,
                            message := some "Invalid or expired reset token" }, db := db }
            | some u =>
                let u2 := { u with
                  password := bcryptHash (newPassword.getD ""),
                  passwordResetToken := none,
                  passwordResetExpires := none }
                { resp := { status := 200, success := true,
                            message := some "Password has been reset successfully" },
                  db := saveUser db u2 }

/-- Email-change statement of updateUser: a truthy new email different from
the stored one is written and resets the verification state, clearing both
verification fields (the isAdmin-or-self condition guarding the reset is
always true at that point, since the handler returned 403 earlier
otherwise). -/
def updEmail (u : UserAccount) (email : Option String) : UserAccount :=
  if strPresent email ∧ email.getD "" ≠ u.email then
    { u with email := email.getD "",
             isEmailVerified := false,
             emailVerificationToken := none,
             emailVerificationExpires := none }
  else u

/-- fullName statement of updateUser. -/
def updFullName (u : UserAccount) (fullName : Option String) : UserAccount :=
  if strPresent fullName then { u with fullName := fullName.getD "" } else u

/-- Password statement of updateUser: a truthy password is rehashed. -/
def updPassword (u : UserAccount) (password : Option String) : UserAccount :=
  if strPresent password then
    { u with password := bcryptHash (password.getD "") }
  else u

/-- Role statement of updateUser: only an admin requester changes roles. -/
def updRole (u : UserAccount) (role : Option String) (isAdmin : Bool) :
    UserAccount :=
  if strPresent role ∧ isAdmin then { u with role := role.getD "" } else u

/-- Verification-flag statement of updateUser: only an admin requester and a
defined body value change the flag. -/
def updVerified (u : UserAccount) (isEmailVerified : Option Bool)
    (isAdmin : Bool) : UserAccount :=
  match isEmailVerified with
  | some b => if isAdmin then { u with isEmailVerified := b } else u
  | none => u

/-- Field-update sequence of updateUser, in source order: email change,
fullName, password, role, isEmailVerified. -/
def applyUserUpdate (u : UserAccount)
    (fullName email password role : Option String)
    (isEmailVerified : Option Bool) (isAdmin : Bool) : UserAccount :=
  updVerified
    (updRole (updPassword (updFullName (updEmail u email) fullName) password)
      role isAdmin)
    isEmailVerified isAdmin

/-- Model of the updateUser controller (admin or self update). requesterId
and requesterRole come from req.user; validationOk is the express-validator
verdict. -/
def updateUser (db : UserDb) (requesterId : Nat) (requesterRole : String)
    (targetId : Nat) (validationOk : Bool)
    (fullName email password role : Option String)
    (isEmailVerified : Option Bool) : HandlerOutcome :=
  let isAdmin := requesterRole == "admin"
  let isSelf := requesterId == targetId
  if ¬ (isAdmin ∨ isSelf) then
    { resp := { status := 403, success := false,
                message := some "Not authorized to update this user" }, db := db }
  else if ¬ validationOk then
    { resp := { status := 400, success := false,
                message := some "Validation failed" }, db := db }
  else
    match findById db targetId with
    | none =>
        { resp := { status := 404, success := false,
                    message := some "User not found" }, db := db }
    | some u =>
        if isSelf ∧ ¬ isAdmin ∧ strPresent role ∧ role.getD "" ≠ u.role then
          { resp := { status := 403, success := false,
                      message := some "Cannot change your own role" }, db := db }
        else if isSelf ∧ ¬ isAdmin ∧ isEmailVerified.isSome ∧
            isEmailVerified ≠ some u.isEmailVerified then
          { resp := { status := 403, success := false,
                      message := some "Cannot change email verification status" },
            db := db }
        else if strPresent email ∧ email.getD "" ≠ u.email ∧
            (db.find? (fun v => v.email == email.getD "" && v.id != targetId)).isSome then
          { resp := { status := 400, success := false,
                      message := some "Email already exists" }, db := db }
        else
          { resp := { status := 200, success := true,
                      message := some "User updated successfully",
                      hasUserPayload := true },
            db := saveUser db
              (applyUserUpdate u fullName email password role
                isEmailVerified isAdmin) }

/-- Model of the updateUserStatus controller (admin only). The body field
must be an actual Boolean; manual verification clears both verification
token fields, manual unverification leaves them untouched. -/
def updateUserStatus (db : UserDb) (targetId : Nat)
    (isEmailVerified : Option Bool) : HandlerOutcome :=
  match isEmailVerified with
  | none =>
      { resp := { status := 400, success := false,
                  message := some "Email verification status must be a boolean" },
        db := db }
  | some b =>
      match findById db targetId with
      | none =>
          { resp := { status := 404, success := false,
                      message := some "User not found" }, db := db }
      | some u =>
          let u2 :=
            if b then
              { u with isEmailVerified := b,
                       emailVerificationToken := none,
                       emailVerificationExpires := none }
            else { u with isEmailVerified := b }
          { resp := { status := 200, success := true }, db := saveUser db u2 }

/-- Profile document, one-to-one with a user via userId. -/
structure Profile where
  userId : Nat
  bio : String
  location : String
  country : String
  phoneNumber : String
  profileImage : String
  createdAt : Nat
  updatedAt : Nat
deriving DecidableEq, Repr

/-- Response profile built by getProfile: user identity fields joined with
the profile fields or their fallbacks. The handler loads the user through
User.findById(id).select(fullName email), an inclusive projection that
materializes only fullName and email, so user.createdAt and user.updatedAt
are undefined on that document; the timestamp slots of the response
therefore hold a value only when a profile document exists, and res.json
drops a key whose value is undefined — modelled by Option Nat with none
for the omitted key. -/
structure ProfileView where
  userId : Nat
  fullName : String
  email : String
  bio : String
  location : String
  country : String
  phoneNumber : String
  profileImage : String
  createdAt : Option Nat
  updatedAt : Option Nat
deriving DecidableEq, Repr

/-- Result of the getProfile handler. -/
structure ProfileOutcome where
  status : Nat
  success : Bool
  message : Option String := none
  profile : Option ProfileView := none
deriving DecidableEq, Repr

/-- Model of the getProfile controller (profile routes). A missing user is
404; a missing profile document is not an error: the optional fields
synthesize to empty strings. The user is read with the fullName-email
projection, so the JavaScript fallback expressions
profile ? profile.createdAt : user.createdAt (and likewise updatedAt)
evaluate to undefined when no profile document exists — the projected
document has no timestamp paths — and the JSON response omits those keys,
modelled here by p?.map without a fallback. -/
def getProfile (users : UserDb) (profiles : List Profile) (id : Nat) :
    ProfileOutcome :=
  match findById users id with
  | none =>
      { status := 404, success := false, message := some "User not found" }
  | some u =>
      let p? := profiles.find? (fun p => p.userId == id)
      let view : ProfileView :=
        { userId := id,
          fullName := u.fullName,
          email := u.email,
          bio := (p?.map (fun p => p.bio)).getD "",
          location := (p?.map (fun p => p.location)).getD "",
          country := (p?.map (fun p => p.country)).getD "",
          phoneNumber := (p?.map (fun p => p.phoneNumber)).getD "",
          profileImage := (p?.map (fun p => p.profileImage)).getD "",
          createdAt := p?.map (fun p => p.createdAt),
          updatedAt := p?.map (fun p => p.updatedAt) }
      { status := 200, success := true,
        message := some "Profile retrieved successfully",
        profile := some view }

/-! Invariants and shared lemmas. -/

/-- Pairing invariant on one account: the verification token and its expiry
are set or absent together, and so are the reset token and its expiry. -/
def tokenPairsConsistent (u : UserAccount) : Bool :=
  (u.emailVerificationToken.isSome == u.emailVerificationExpires.isSome) &&
  (u.passwordResetToken.isSome == u.passwordResetExpires.isSome)

/-- Pairing invariant over the whole user collection. -/
def dbConsistent (db : UserDb) : Prop :=
  ∀ u ∈ db, tokenPairsConsistent u = true

instance (db : UserDb) : Decidable (dbConsistent db) :=
  List.decidableBAll _ db

/-- Uniqueness of emails across the store, as enforced by the unique index
of the user schema. -/
def emailsUnique (db : UserDb) : Prop :=
  ∀ u ∈ db, ∀ v ∈ db, u.email = v.email → u = v

instance (db : UserDb) : Decidable (emailsUnique db) :=
  List.decidableBAll _ db

/-- Concrete unverified account with a pending verification token, used to
instantiate theorems on explicit inputs. -/
def demoUser : UserAccount :=
  { id := 1, email := "a@x.com", password := bcryptHash "longenough1",
    fullName := "A", role := "user", isEmailVerified := false,
    emailVerificationToken := some "vtok",
    emailVerificationExpires := some 1000,
    passwordResetToken := none, passwordResetExpires := none,
    createdAt := 0, updatedAt := 0 }

/-- Concrete verified account with no pending tokens. -/
def demoVerifiedUser : UserAccount :=
  { id := 2, email := "v@x.com", password := bcryptHash "longenough2",
    fullName := "V", role := "user", isEmailVerified := true,
    emailVerificationToken := none, emailVerificationExpires := none,
    passwordResetToken := none, passwordResetExpires := none,
    createdAt := 0, updatedAt := 0 }

/-- Concrete two-account store. -/
def demoDb : UserDb := [demoUser, demoVerifiedUser]

/-- Concrete verified account with nonzero timestamps and no profile
document, used to observe the timestamp behaviour of getProfile. -/
def demoUserTs : UserAccount :=
  { id := 3, email := "t@x.com", password := bcryptHash "longenough4",
    fullName := "T", role := "user", isEmailVerified := true,
    emailVerificationToken := none, emailVerificationExpires := none,
    passwordResetToken := none, passwordResetExpires := none,
    createdAt := 42, updatedAt := 43 }

theorem mem_saveUser {db : UserDb} {u x : UserAccount}
    (hx : x ∈ saveUser db u) : x = u ∨ (x ∈ db ∧ x.id ≠ u.id) := by
  unfold saveUser at hx
  rcases List.mem_map.mp hx with ⟨v, hv, hvx⟩
  by_cases h : v.id = u.id
  · left
    simpa [h] using hvx.symm
  · right
    have : x = v := by simpa [h] using hvx.symm
    subst this
    exact ⟨hv, h⟩

theorem dbConsistent_saveUser {db : UserDb} {u : UserAccount}
    (hdb : dbConsistent db) (hu : tokenPairsConsistent u = true) :
    dbConsistent (saveUser db u) := by
  intro x hx
  rcases mem_saveUser hx with rfl | ⟨hxdb, _⟩
  · exact hu
  · exact hdb x hxdb

theorem dbConsistent_append {db : UserDb} {u : UserAccount}
    (hdb : dbConsistent db) (hu : tokenPairsConsistent u = true) :
    dbConsistent (db ++ [u]) := by
  intro x hx
  rcases List.mem_append.mp hx with hxdb | hxu
  · exact hdb x hxdb
  · rcases List.mem_singleton.mp hxu with rfl
    exact hu

theorem find?_append_left_none {α : Type} {p : α → Bool} {l1 l2 : List α}
    (h : l1.find? p = none) : (l1 ++ l2).find? p = l2.find? p := by
  rw [List.find?_append, h, Option.none_or]

theorem saveUser_append {db : UserDb} {u u2 : UserAccount}
    (hid : u2.id = u.id) (hfresh : ∀ v ∈ db, v.id ≠ u.id) :
    saveUser (db ++ [u]) u2 = db ++ [u2] := by
  unfold saveUser
  rw [List.map_append]
  have h1 : db.map (fun v => if v.id == u2.id then u2 else v) = db := by
    have hcongr : ∀ v ∈ db,
        (fun v => if v.id == u2.id then u2 else v) v = (fun v => v) v := by
      intro v hv
      have : v.id ≠ u2.id := by rw [hid]; exact hfresh v hv
      simp [this]
    rw [List.map_congr_left hcongr, List.map_id']
  have h2 : [u].map (fun v => if v.id == u2.id then u2 else v) = [u2] := by
    simp [hid]
  rw [h1, h2]

theorem signup_db_consistent (db : UserDb)
    (email password confirmPassword fullName : Option String)
    (now : Nat) (freshToken : String) (freshId : Nat)
    (hdb : dbConsistent db) :
    dbConsistent
      (signup db email password confirmPassword fullName now freshToken freshId).db := by
  unfold signup
  repeat' split
  all_goals
    first
      | exact hdb
      | · apply dbConsistent_append hdb
          simp [tokenPairsConsistent, signupNewUser]

theorem resend_db_consistent (db : UserDb) (email : Option String) (now : Nat)
    (freshToken : String) (mailOk : Bool) (hdb : dbConsistent db) :
    dbConsistent (resendVerificationEmail db email now freshToken mailOk).db := by
  unfold resendVerificationEmail
  split
  · exact hdb
  split
  · exact hdb
  next u heq =>
    have hu := hdb u (List.mem_of_find?_eq_some heq)
    simp [tokenPairsConsistent, Bool.and_eq_true] at hu
    split
    · exact hdb
    split
    all_goals
      apply dbConsistent_saveUser hdb
      simp [tokenPairsConsistent, hu.2]

theorem verifyEmail_db_consistent (db : UserDb) (token email : Option String)
    (now : Nat) (hdb : dbConsistent db) :
    dbConsistent (verifyEmail db token email now).db := by
  unfold verifyEmail
  split
  · exact hdb
  split
  · exact hdb
  next u heq =>
    have hu := hdb u (List.mem_of_find?_eq_some heq)
    simp [tokenPairsConsistent, Bool.and_eq_true] at hu
    apply dbConsistent_saveUser hdb
    simp [tokenPairsConsistent, verifiedUserOf, hu.2]

theorem forgotPassword_db_consistent (db : UserDb) (email : Option String)
    (now : Nat) (mailOk : Bool) (hdb : dbConsistent db) :
    dbConsistent (forgotPassword db email now mailOk).db := by
  unfold forgotPassword
  split
  · exact hdb
  split
  · exact hdb
  next u heq =>
    have hu := hdb u (List.mem_of_find?_eq_some heq)
    simp [tokenPairsConsistent, Bool.and_eq_true] at hu
    split
    all_goals
      apply dbConsistent_saveUser hdb
      simp [tokenPairsConsistent, hu.1]

theorem resetPassword_db_consistent (db : UserDb) (tok : Option TokenInput)
    (newPassword confirmPassword : Option String) (now : Nat)
    (hdb : dbConsistent db) :
    dbConsistent (resetPassword db tok newPassword confirmPassword now).db := by
  unfold resetPassword
  repeat' split
  all_goals
    first
      | exact hdb
      | next u heq =>
          have hu := hdb u (List.mem_of_find?_eq_some heq)
          simp [tokenPairsConsistent, Bool.and_eq_true] at hu
          apply dbConsistent_saveUser hdb
          simp [tokenPairsConsistent, hu.1]

theorem updEmail_consistent {u : UserAccount} {email : Option String}
    (hu : tokenPairsConsistent u = true) :
    tokenPairsConsistent (updEmail u email) = true := by
  unfold updEmail
  split <;> simp_all [tokenPairsConsistent]

theorem updFullName_consistent {u : UserAccount} {fullName : Option String}
    (hu : tokenPairsConsistent u = true) :
    tokenPairsConsistent (updFullName u fullName) = true := by
  unfold updFullName
  split <;> simp_all [tokenPairsConsistent]

theorem updPassword_consistent {u : UserAccount} {password : Option String}
    (hu : tokenPairsConsistent u = true) :
    tokenPairsConsistent (updPassword u password) = true := by
  unfold updPassword
  split <;> simp_all [tokenPairsConsistent]

theorem updRole_consistent {u : UserAccount} {role : Option String}
    {isAdmin : Bool} (hu : tokenPairsConsistent u = true) :
    tokenPairsConsistent (updRole u role isAdmin) = true := by
  unfold updRole
  split <;> simp_all [tokenPairsConsistent]

theorem updVerified_consistent {u : UserAccount} {iev : Option Bool}
    {isAdmin : Bool} (hu : tokenPairsConsistent u = true) :
    tokenPairsConsistent (updVerified u iev isAdmin) = true := by
  unfold updVerified
  rcases iev with _ | b
  · exact hu
  · by_cases hA : isAdmin <;> simp_all [tokenPairsConsistent]

theorem applyUserUpdate_consistent {u : UserAccount}
    {fullName email password role : Option String} {iev : Option Bool}
    {isAdmin : Bool} (hu : tokenPairsConsistent u = true) :
    tokenPairsConsistent
      (applyUserUpdate u fullName email password role iev isAdmin) = true := by
  unfold applyUserUpdate
  exact updVerified_consistent
    (updRole_consistent
      (updPassword_consistent (updFullName_consistent (updEmail_consistent hu))))

theorem updateUser_db_consistent (db : UserDb) (requesterId : Nat)
    (requesterRole : String) (targetId : Nat) (validationOk : Bool)
    (fullName email password role : Option String)
    (isEmailVerified : Option Bool) (hdb : dbConsistent db) :
    dbConsistent
      (updateUser db requesterId requesterRole targetId validationOk
        fullName email password role isEmailVerified).db := by
  simp only [updateUser]
  split
  · exact hdb
  split
  · exact hdb
  split
  · exact hdb
  next u hfind =>
    have hu := hdb u (List.mem_of_find?_eq_some hfind)
    split
    · exact hdb
    split
    · exact hdb
    split
    · exact hdb
    exact dbConsistent_saveUser hdb (applyUserUpdate_consistent hu)

theorem updateUserStatus_db_consistent (db : UserDb) (targetId : Nat)
    (isEmailVerified : Option Bool) (hdb : dbConsistent db) :
    dbConsistent (updateUserStatus db targetId isEmailVerified).db := by
  unfold updateUserStatus
  rcases isEmailVerified with _ | b
  · exact hdb
  rcases hfind : findById db targetId with _ | u
  · simp only [hfind]
    exact hdb
  simp only [hfind]
  have hu := hdb u (List.mem_of_find?_eq_some hfind)
  simp [tokenPairsConsistent, Bool.and_eq_true] at hu
  apply dbConsistent_saveUser hdb
  simp only [tokenPairsConsistent, Bool.and_eq_true, beq_iff_eq]
  split_ifs <;> simp_all

theorem verifyEmail_status_cases (db : UserDb) (token email : Option String)
    (now : Nat) :
    (verifyEmail db token email now).resp.status = 200 ∨
    (verifyEmail db token email now).resp.status = 400 := by
  unfold verifyEmail
  repeat' split
  all_goals simp

theorem verifyResetToken_status_cases (db : UserDb)
    (token : Option TokenInput) (now : Nat) :
    (verifyResetToken db token now).resp.status = 200 ∨
    (verifyResetToken db token now).resp.status = 400 := by
  unfold verifyResetToken
  repeat' split
  all_goals simp

theorem resetPassword_status_cases (db : UserDb) (token : Option TokenInput)
    (newPassword confirmPassword : Option String) (now : Nat) :
    (resetPassword db token newPassword confirmPassword now).resp.status = 200 ∨
    (resetPassword db token newPassword confirmPassword now).resp.status = 400 := by
  unfold resetPassword
  repeat' split
  all_goals simp

theorem verifyEmail_fail_generic (db : UserDb) (token email : Option String)
    (now : Nat) (ht : strPresent token = true) (he : strPresent email = true)
    (h : (verifyEmail db token email now).resp.status ≠ 200) :
    (verifyEmail db token email now).resp =
      { status := 400, success := false,
        message := some "Invalid or expired verification token" } := by
  have hp : strPresent token ∧ strPresent email := ⟨ht, he⟩
  unfold verifyEmail at h ⊢
  rw [if_neg (not_not_intro hp)] at h ⊢
  rcases hfind : db.find? (verifyEmailMatch (token.getD "") (email.getD "") now)
    with _ | u
  · rfl
  · rw [hfind] at h
    simp at h

/-! Claim theorems. -/

/-- C1: once a verify-email request succeeds with a given token and email,
any later verify-email request presenting the same token and email is
rejected with the generic 400 invalid-or-expired response: the consumed
token is never accepted a second time. The store is assumed to satisfy the
unique-email index of the user schema. -/
theorem verify_token_single_use (db : UserDb) (token email : Option String)
    (now now2 : Nat) (huniq : emailsUnique db)
    (h : (verifyEmail db token email now).resp.status = 200) :
    (verifyEmail (verifyEmail db token email now).db token email now2).resp =
      { status := 400, success := false,
        message := some "Invalid or expired verification token" } := by
  have hp : strPresent token ∧ strPresent email := by
    by_contra hp
    unfold verifyEmail at h
    rw [if_pos hp] at h
    simp at h
  rcases hfind : db.find? (verifyEmailMatch (token.getD "") (email.getD "") now)
    with _ | u
  · unfold verifyEmail at h
    rw [if_neg (not_not_intro hp), hfind] at h
    simp at h
  · have hmem := List.mem_of_find?_eq_some hfind
    have hpu := List.find?_some hfind
    have hdb2 : (verifyEmail db token email now).db =
        saveUser db (verifiedUserOf u) := by
      unfold verifyEmail
      rw [if_neg (not_not_intro hp), hfind]
    rw [hdb2]
    unfold verifyEmail
    rw [if_neg (not_not_intro hp)]
    have hnone : (saveUser db (verifiedUserOf u)).find?
        (verifyEmailMatch (token.getD "") (email.getD "") now2) = none := by
      apply List.find?_eq_none.mpr
      intro x hx
      rcases mem_saveUser hx with rfl | ⟨hxdb, hxid⟩
      · simp [verifyEmailMatch, verifiedUserOf]
      · intro hpx
        unfold verifyEmailMatch at hpx hpu
        rw [Bool.and_eq_true, Bool.and_eq_true] at hpx hpu
        have hx_email : x.email = email.getD "" := eq_of_beq hpx.1.1
        have hu_email : u.email = email.getD "" := eq_of_beq hpu.1.1
        have hxu : x = u :=
          huniq x hxdb u hmem (by rw [hx_email, hu_email])
        exact hxid (by rw [hxu]; rfl)
    rw [hnone]

/-- C1 witness: a concrete successful verification followed by a replay of
the same token and email, rejected with the generic message. -/
theorem verify_token_single_use_witness :
    (verifyEmail (verifyEmail demoDb (some "vtok") (some "a@x.com") 0).db
       (some "vtok") (some "a@x.com") 5).resp =
      { status := 400, success := false,
        message := some "Invalid or expired verification token" } :=
  verify_token_single_use demoDb (some "vtok") (some "a@x.com") 0 5
    (by decide) (by decide)

/-- C2: a login naming an existing unverified account receives the explicit
401 verification-required response, and the response is the same for any
two submitted passwords: the password comparison never runs while the
account is unverified. -/
theorem login_unverified_uniform (db : UserDb) (email p1 p2 : Option String)
    (u : UserAccount) (now1 now2 : Nat)
    (he : strPresent email = true) (h1 : strPresent p1 = true)
    (h2 : strPresent p2 = true)
    (hfind : findOneByEmail db (email.getD "") = some u)
    (hverif : u.isEmailVerified = false) :
    (login db email p1 now1).resp = (login db email p2 now2).resp ∧
    (login db email p1 now1).resp =
      { status := 401, success := false,
        message := some "Please verify your email address before logging in" } := by
  constructor <;> simp [login, he, h1, h2, hfind, hverif]

/-- C2 witness: the unverified demo account receives the same 401 response
for the correct password and for a wrong one. -/
theorem login_unverified_uniform_witness :
    (login demoDb (some "a@x.com") (some "longenough1") 0).resp =
      (login demoDb (some "a@x.com") (some "wrongpass") 9).resp ∧
    (login demoDb (some "a@x.com") (some "longenough1") 0).resp =
      { status := 401, success := false,
        message := some "Please verify your email address before logging in" } :=
  login_unverified_uniform demoDb (some "a@x.com") (some "longenough1")
    (some "wrongpass") demoUser 0 9 (by decide) (by decide) (by decide)
    (by decide) (by decide)

/-- C3: every account-mutating operation of the subsystem (signup,
resend-verification, verify-email, forgot-password, reset-password, admin
user update, admin status update) preserves the invariant that a token
field and its paired expiry field are set or absent together, for both the
verification pair and the reset pair. -/
theorem token_expiry_paired (db : UserDb)
    (email password confirmPassword fullName token role : Option String)
    (emailVerifiedBody : Option Bool) (resetTok : Option TokenInput)
    (newPassword confirmNewPassword : Option String)
    (now : Nat) (freshToken : String) (freshId : Nat) (mailOk : Bool)
    (requesterId targetId : Nat) (requesterRole : String)
    (validationOk : Bool) (hdb : dbConsistent db) :
    dbConsistent
      (signup db email password confirmPassword fullName now freshToken freshId).db ∧
    dbConsistent (resendVerificationEmail db email now freshToken mailOk).db ∧
    dbConsistent (verifyEmail db token email now).db ∧
    dbConsistent (forgotPassword db email now mailOk).db ∧
    dbConsistent (resetPassword db resetTok newPassword confirmNewPassword now).db ∧
    dbConsistent
      (updateUser db requesterId requesterRole targetId validationOk
        fullName email password role emailVerifiedBody).db ∧
    dbConsistent (updateUserStatus db targetId emailVerifiedBody).db :=
  ⟨signup_db_consistent db email password confirmPassword fullName now
      freshToken freshId hdb,
   resend_db_consistent db email now freshToken mailOk hdb,
   verifyEmail_db_consistent db token email now hdb,
   forgotPassword_db_consistent db email now mailOk hdb,
   resetPassword_db_consistent db resetTok newPassword confirmNewPassword now hdb,
   updateUser_db_consistent db requesterId requesterRole targetId validationOk
      fullName email password role emailVerifiedBody hdb,
   updateUserStatus_db_consistent db targetId emailVerifiedBody hdb⟩

/-- C3 witness: pairing preservation instantiated on a concrete store and a
concrete signup followed by the other operations. -/
theorem token_expiry_paired_witness :
    dbConsistent
      (signup demoDb (some "b@x.com") (some "password1") (some "password1")
        (some "B") 0 "tok2" 7).db ∧
    dbConsistent (forgotPassword demoDb (some "v@x.com") 0 true).db :=
  ⟨(token_expiry_paired demoDb (some "b@x.com") (some "password1")
      (some "password1") (some "B") none none none none none none 0 "tok2" 7
      true 1 1 "admin" true (by decide)).1,
   (token_expiry_paired demoDb (some "v@x.com") (some "password1")
      (some "password1") (some "B") none none none none none none 0 "tok2" 7
      true 1 1 "admin" true (by decide)).2.2.2.1⟩

/-- C9: a resend-verification request naming an email with no matching
account is answered 404 with a User not found message and leaves the store
untouched, while a forgot-password request for the same unknown email is
answered 200 — resend reveals account non-existence where forgot-password
does not. -/
theorem resend_unknown_email_404 (db : UserDb) (email : Option String)
    (now : Nat) (freshToken : String) (mailOk mailOk2 : Bool)
    (he : strPresent email = true)
    (hnone : findOneByEmail db (email.getD "") = none) :
    resendVerificationEmail db email now freshToken mailOk =
      { resp := { status := 404, success := false,
                  message := some "User not found" }, db := db } ∧
    (forgotPassword db email now mailOk2).resp.status = 200 := by
  constructor <;> simp [resendVerificationEmail, forgotPassword, he, hnone]

/-- C9 witness: the unknown email nobody@x.com gets 404 from resend and 200
from forgot-password on the concrete store. -/
theorem resend_unknown_email_404_witness :
    resendVerificationEmail demoDb (some "nobody@x.com") 0 "tok3" true =
      { resp := { status := 404, success := false,
                  message := some "User not found" }, db := demoDb } ∧
    (forgotPassword demoDb (some "nobody@x.com") 0 false).resp.status = 200 :=
  resend_unknown_email_404 demoDb (some "nobody@x.com") 0 "tok3" true false
    (by decide) (by decide)

/-- C10 counterexample: demoUserTs exists with createdAt 42 and updatedAt
43 and has no profile document, yet the 200 response omits both timestamps
instead of falling back to the user record, because the handler loads the
user through a fullName-email projection on which the timestamp paths are
undefined. -/
theorem getProfile_no_timestamp_fallback :
    demoUserTs.createdAt = 42 ∧ demoUserTs.updatedAt = 43 ∧
    (getProfile [demoUserTs] [] 3).status = 200 ∧
    (getProfile [demoUserTs] [] 3).profile =
      some { userId := 3, fullName := "T", email := "t@x.com",
             bio := "", location := "", country := "", phoneNumber := "",
             profileImage := "", createdAt := none, updatedAt := none } ∧
    Option.map ProfileView.createdAt (getProfile [demoUserTs] [] 3).profile ≠
      some (some demoUserTs.createdAt) := by
  decide

/-- C10 (amended): get-profile for an existing user with no profile
document still answers 200 with a synthesized profile whose bio, location,
country, phoneNumber and profileImage are empty strings, but — since the
user is fetched through a projection limited to fullName and email — the
response omits createdAt and updatedAt rather than falling back to the
user record; 404 is returned exactly when the user does not exist. -/
theorem getProfile_synthesizes_default (users : UserDb)
    (profiles : List Profile) (id : Nat) :
    (∀ u, findById users id = some u →
        profiles.find? (fun p => p.userId == id) = none →
        getProfile users profiles id =
          { status := 200, success := true,
            message := some "Profile retrieved successfully",
            profile := some
              { userId := id, fullName := u.fullName, email := u.email,
                bio := "", location := "", country := "",
                phoneNumber := "", profileImage := "",
                createdAt := none, updatedAt := none } }) ∧
    ((getProfile users profiles id).status = 404 ↔ findById users id = none) := by
  constructor
  · intro u hu hp
    simp [getProfile, hu, hp]
  · rcases hfind : findById users id with _ | u <;> simp [getProfile, hfind]

/-- C10 witness: the timestamped demo user has no profile document in the
empty profile collection and receives a 200 synthesized profile with both
timestamp keys omitted. -/
theorem getProfile_synthesizes_default_witness :
    getProfile [demoUserTs] ([] : List Profile) 3 =
      { status := 200, success := true,
        message := some "Profile retrieved successfully",
        profile := some
          { userId := 3, fullName := "T", email := "t@x.com",
            bio := "", location := "", country := "",
            phoneNumber := "", profileImage := "",
            createdAt := none, updatedAt := none } } :=
  (getProfile_synthesizes_default [demoUserTs] [] 3).1 demoUserTs
    (by decide) (by decide)

/-- C4 counterexample: two failed reset-token validations made at the same
instant return different messages — an expired signed token is told it has
expired while a malformed token is told it is invalid — so the failure
causes are distinguishable, contrary to the claim that all failure causes
produce an identical error message. -/
theorem reset_token_messages_differ :
    (verifyResetToken []
      (some (TokenInput.signed 1 RESET_TOKEN_SECRET 5)) 10).resp.status = 400 ∧
    (verifyResetToken []
      (some (TokenInput.garbage "junk")) 10).resp.status = 400 ∧
    (verifyResetToken []
      (some (TokenInput.signed 1 RESET_TOKEN_SECRET 5)) 10).resp.message ≠
    (verifyResetToken []
      (some (TokenInput.garbage "junk")) 10).resp.message := by
  decide

/-- C4 (amended): every failed token validation in verify-email,
verify-reset-token and reset-password carries HTTP status 400, and
verify-email answers every lookup failure with the single generic
invalid-or-expired message; the two reset-token endpoints, however,
distinguish the failure cause in the message: an expired signed token, a
malformed token, and a verified token with no stored match each get their
own message. -/
theorem token_failure_status_400 (db : UserDb) (token email : Option String)
    (resetTok : Option TokenInput) (newPassword confirmPassword : Option String)
    (now sub e : Nat) (s : String) :
    ((verifyEmail db token email now).resp.status ≠ 200 →
      (verifyEmail db token email now).resp.status = 400) ∧
    (strPresent token = true → strPresent email = true →
      (verifyEmail db token email now).resp.status ≠ 200 →
      (verifyEmail db token email now).resp =
        { status := 400, success := false,
          message := some "Invalid or expired verification token" }) ∧
    ((verifyResetToken db resetTok now).resp.status ≠ 200 →
      (verifyResetToken db resetTok now).resp.status = 400) ∧
    ((resetPassword db resetTok newPassword confirmPassword now).resp.status ≠ 200 →
      (resetPassword db resetTok newPassword confirmPassword now).resp.status = 400) ∧
    (e ≤ now →
      (verifyResetToken db
        (some (TokenInput.signed sub RESET_TOKEN_SECRET e)) now).resp.message =
        some "Reset token has expired") ∧
    ((verifyResetToken db (some (TokenInput.garbage s)) now).resp.message =
        some "Invalid reset token") ∧
    (now < e →
      db.find? (resetTokenMatches sub (TokenInput.signed sub RESET_TOKEN_SECRET e) now)
        = none →
      (verifyResetToken db
        (some (TokenInput.signed sub RESET_TOKEN_SECRET e)) now).resp.message =
        some "Invalid or expired reset token") ∧
    (strPresent newPassword = true → newPassword = confirmPassword →
      8 ≤ (newPassword.getD "").length → e ≤ now →
      (resetPassword db (some (TokenInput.signed sub RESET_TOKEN_SECRET e))
        newPassword confirmPassword now).resp.message =
        some "Reset token has expired") ∧
    (strPresent newPassword = true → newPassword = confirmPassword →
      8 ≤ (newPassword.getD "").length →
      (resetPassword db (some (TokenInput.garbage s))
        newPassword confirmPassword now).resp.message =
        some "Invalid reset token") ∧
    (strPresent newPassword = true → newPassword = confirmPassword →
      8 ≤ (newPassword.getD "").length → now < e →
      db.find? (resetTokenMatches sub (TokenInput.signed sub RESET_TOKEN_SECRET e) now)
        = none →
      (resetPassword db (some (TokenInput.signed sub RESET_TOKEN_SECRET e))
        newPassword confirmPassword now).resp.message =
        some "Invalid or expired reset token") := by
  refine ⟨?_, ?_, ?_, ?_, ?_, ?_, ?_, ?_, ?_, ?_⟩
  · exact fun h => (verifyEmail_status_cases db token email now).resolve_left h
  · exact fun ht he h => verifyEmail_fail_generic db token email now ht he h
  · exact fun h => (verifyResetToken_status_cases db resetTok now).resolve_left h
  · exact fun h =>
      (resetPassword_status_cases db resetTok newPassword confirmPassword now).resolve_left h
  · intro hle
    simp [verifyResetToken, jwtVerify, hle]
  · simp [verifyResetToken, jwtVerify]
  · intro hlt hn
    simp [verifyResetToken, jwtVerify, Nat.not_le.mpr hlt, hn]
  · intro hnp heq hlen8 hle
    subst heq
    simp [resetPassword, jwtVerify, hnp, hle, Nat.not_lt.mpr hlen8]
  · intro hnp heq hlen8
    subst heq
    simp [resetPassword, jwtVerify, hnp, Nat.not_lt.mpr hlen8]
  · intro hnp heq hlen8 hlt hn
    subst heq
    simp [resetPassword, jwtVerify, hnp, Nat.not_le.mpr hlt, hn,
      Nat.not_lt.mpr hlen8]

/-- C4 witness: an expired signed reset token on the concrete store is
answered with the dedicated expiry message by both reset-token endpoints,
with status 400. -/
theorem token_failure_status_400_witness :
    (verifyResetToken demoDb
      (some (TokenInput.signed 1 RESET_TOKEN_SECRET 5)) 10).resp.message =
      some "Reset token has expired" ∧
    (resetPassword demoDb (some (TokenInput.signed 1 RESET_TOKEN_SECRET 5))
        (some "newpassword1") (some "newpassword1") 10).resp.message =
      some "Reset token has expired" :=
  ⟨(token_failure_status_400 demoDb none none none none none 10 1 5
      "junk").2.2.2.2.1 (by decide),
   (token_failure_status_400 demoDb none none none (some "newpassword1")
      (some "newpassword1") 10 1 5 "junk").2.2.2.2.2.2.2.1 (by decide) rfl
      (by decide) (by decide)⟩

/-- C5 counterexample: an admin create-user request for an email that is
already taken is rejected with HTTP 400, not the claimed 409, though no
account is created. -/
theorem createUser_duplicate_not_409 :
    (createUser demoDb true "Bob" "a@x.com" "password1" "student" false 0 9).resp.status
      = 400 ∧
    (createUser demoDb true "Bob" "a@x.com" "password1" "student" false 0 9).resp.status
      ≠ 409 ∧
    (createUser demoDb true "Bob" "a@x.com" "password1" "student" false 0 9).db
      = demoDb := by
  decide

/-- C5 (amended): a duplicate email is always rejected without creating an
account, but the status and message differ by entry point: public signup
answers 409 with Email already exists, while admin create-user answers 400
with User with this email already exists. -/
theorem duplicate_email_rejected (db : UserDb)
    (email password confirmPassword fullName : Option String)
    (now : Nat) (freshToken : String) (freshId : Nat)
    (fullName2 password2 role2 : String) (iev : Bool)
    (now2 freshId2 : Nat) (w : UserAccount)
    (hp1 : strPresent email = true) (hp2 : strPresent password = true)
    (hp3 : strPresent confirmPassword = true) (hp4 : strPresent fullName = true)
    (hmatch : password = confirmPassword)
    (hlen : 8 ≤ (password.getD "").length)
    (hdup : findOneByEmail db (email.getD "") = some w) :
    signup db email password confirmPassword fullName now freshToken freshId =
      { resp := { status := 409, success := false,
                  message := some "Email already exists" }, db := db } ∧
    createUser db true fullName2 (email.getD "") password2 role2 iev now2 freshId2 =
      { resp := { status := 400, success := false,
                  message := some "User with this email already exists" },
        db := db } := by
  constructor
  · subst hmatch
    simp [signup, hp1, hp2, hp3, hp4, hdup, Nat.not_lt.mpr hlen]
  · simp [createUser, hdup]

/-- C5 witness: the taken email a@x.com is rejected by both entry points on
the concrete store, with 409 from signup and 400 from admin create-user. -/
theorem duplicate_email_rejected_witness :
    signup demoDb (some "a@x.com") (some "password1") (some "password1")
        (some "Dup") 0 "tok4" 9 =
      { resp := { status := 409, success := false,
                  message := some "Email already exists" }, db := demoDb } ∧
    createUser demoDb true "Dup" "a@x.com" "password1" "student" false 0 9 =
      { resp := { status := 400, success := false,
                  message := some "User with this email already exists" },
        db := demoDb } :=
  duplicate_email_rejected demoDb (some "a@x.com") (some "password1")
    (some "password1") (some "Dup") 0 "tok4" 9 "Dup" "password1" "student"
    false 0 9 demoUser (by decide) (by decide) (by decide) (by decide) rfl
    (by decide) (by decide)

/-- C6 counterexample: when the reset email dispatch fails, forgot-password
answers 500 for an existing account but 200 for an unknown one, so the two
responses are not identical and account existence is observable, contrary
to the claim as stated over every pair of requests. -/
theorem forgot_mail_failure_distinguishes :
    (forgotPassword demoDb (some "a@x.com") 0 false).resp.status = 500 ∧
    (forgotPassword demoDb (some "missing@x.com") 0 false).resp.status = 200 ∧
    (forgotPassword demoDb (some "a@x.com") 0 false).resp.status ≠
      (forgotPassword demoDb (some "missing@x.com") 0 false).resp.status := by
  decide

/-- C6 (amended): provided the reset email dispatch succeeds, a
forgot-password request for an email with no matching account and one for
an existing account receive identical responses — same 200 status, same
success flag, same message, same body shape — so the caller cannot tell
from the response whether the account exists; only a dispatch failure on
the existing-account side breaks the symmetry. -/
theorem forgot_password_enumeration_resistant (db : UserDb)
    (e1 e2 : Option String) (now1 now2 : Nat) (u : UserAccount)
    (h1p : strPresent e1 = true) (h2p : strPresent e2 = true)
    (h1 : findOneByEmail db (e1.getD "") = none)
    (h2 : findOneByEmail db (e2.getD "") = some u) :
    (forgotPassword db e1 now1 true).resp = (forgotPassword db e2 now2 true).resp ∧
    (forgotPassword db e1 now1 true).resp.status = 200 := by
  constructor <;> simp [forgotPassword, h1p, h2p, h1, h2]

/-- C6 witness: with successful dispatch, the unknown email and the
existing demo email get identical 200 responses. -/
theorem forgot_password_enumeration_resistant_witness :
    (forgotPassword demoDb (some "missing@x.com") 0 true).resp =
      (forgotPassword demoDb (some "a@x.com") 7 true).resp ∧
    (forgotPassword demoDb (some "missing@x.com") 0 true).resp.status = 200 :=
  forgot_password_enumeration_resistant demoDb (some "missing@x.com")
    (some "a@x.com") 0 7 demoUser (by decide) (by decide) (by decide)
    (by decide)

theorem bcryptHash_ne (pw : String) : bcryptHash pw ≠ pw := by
  intro hcontra
  have hlen := congrArg String.length hcontra
  rw [bcryptHash, String.length_append] at hlen
  have h7 : ("$2b$12$" : String).length = 7 := by decide
  omega

/-- C7: a valid signup (all fields present, matching confirmation, length
at least 8, email not taken) stores on the created account a password that
is never the submitted plaintext, and once the account is verified through
its emailed token, a login with the original plaintext succeeds with 200
and an access token. freshId is assumed fresh for the store, and the
verification happens within the 24 hour expiry window. -/
theorem signup_hash_and_login_roundtrip (db : UserDb)
    (email password confirmPassword fullName : Option String)
    (now now2 now3 : Nat) (freshToken : String) (freshId : Nat)
    (hp1 : strPresent email = true) (hp2 : strPresent password = true)
    (hp3 : strPresent confirmPassword = true) (hp4 : strPresent fullName = true)
    (hmatch : password = confirmPassword)
    (hlen : 8 ≤ (password.getD "").length)
    (hnew : findOneByEmail db (email.getD "") = none)
    (hfresh : ∀ v ∈ db, v.id ≠ freshId)
    (htok : freshToken ≠ "")
    (hexp : now2 < now + 24 * 60 * 60 * 1000) :
    (signup db email password confirmPassword fullName now freshToken
      freshId).resp.status = 201 ∧
    (∀ v ∈ (signup db email password confirmPassword fullName now freshToken
        freshId).db,
      v.email = email.getD "" → v.password ≠ password.getD "") ∧
    (verifyEmail
      (signup db email password confirmPassword fullName now freshToken
        freshId).db
      (some freshToken) email now2).resp.status = 200 ∧
    (login
      (verifyEmail
        (signup db email password confirmPassword fullName now freshToken
          freshId).db
        (some freshToken) email now2).db
      email password now3).resp.status = 200 ∧
    (login
      (verifyEmail
        (signup db email password confirmPassword fullName now freshToken
          freshId).db
        (some freshToken) email now2).db
      email password now3).resp.accessToken.isSome = true := by
  subst hmatch
  have hnotin : ∀ v ∈ db, ¬ (v.email == email.getD "") = true := by
    unfold findOneByEmail at hnew
    exact List.find?_eq_none.mp hnew
  have hdb1 : (signup db email password password fullName now freshToken
      freshId).db =
      db ++ [signupNewUser (email.getD "") (password.getD "")
        (fullName.getD "") now freshToken freshId] := by
    simp [signup, hp1, hp2, hp3, hp4, hnew, Nat.not_lt.mpr hlen]
  have hstatus1 : (signup db email password password fullName now freshToken
      freshId).resp.status = 201 := by
    simp [signup, hp1, hp2, hp3, hp4, hnew, Nat.not_lt.mpr hlen]
  have hstored : ∀ v ∈ (signup db email password password fullName now
      freshToken freshId).db,
      v.email = email.getD "" → v.password ≠ password.getD "" := by
    rw [hdb1]
    intro v hv hvem
    rcases List.mem_append.mp hv with hvdb | hvnew
    · have hne := hnotin v hvdb
      simp at hne
      exact absurd hvem hne
    · rcases List.mem_singleton.mp hvnew with rfl
      exact bcryptHash_ne (password.getD "")
  have hPnew : verifyEmailMatch freshToken (email.getD "") now2
      (signupNewUser (email.getD "") (password.getD "") (fullName.getD "")
        now freshToken freshId) = true := by
    simp [verifyEmailMatch, signupNewUser, hexp]
  have hfind1 : (db ++ [signupNewUser (email.getD "") (password.getD "")
      (fullName.getD "") now freshToken freshId]).find?
      (verifyEmailMatch freshToken (email.getD "") now2) =
      some (signupNewUser (email.getD "") (password.getD "")
        (fullName.getD "") now freshToken freshId) := by
    rw [find?_append_left_none]
    · exact List.find?_cons_of_pos _ hPnew
    · apply List.find?_eq_none.mpr
      intro x hx
      have hne := hnotin x hx
      simp at hne
      simp [verifyEmailMatch, hne]
  have hver : verifyEmail (db ++ [signupNewUser (email.getD "")
      (password.getD "") (fullName.getD "") now freshToken freshId])
      (some freshToken) email now2 =
      { resp := { status := 200, success := true,
                  message := some "Email verified successfully. You can now log in." },
        db := saveUser (db ++ [signupNewUser (email.getD "")
          (password.getD "") (fullName.getD "") now freshToken freshId])
          (verifiedUserOf (signupNewUser (email.getD "") (password.getD "")
            (fullName.getD "") now freshToken freshId)) } := by
    unfold verifyEmail
    rw [if_neg (not_not_intro ⟨by simp [strPresent, htok], hp1⟩)]
    simp only [Option.getD_some]
    rw [hfind1]
  have hsave : saveUser (db ++ [signupNewUser (email.getD "")
      (password.getD "") (fullName.getD "") now freshToken freshId])
      (verifiedUserOf (signupNewUser (email.getD "") (password.getD "")
        (fullName.getD "") now freshToken freshId)) =
      db ++ [verifiedUserOf (signupNewUser (email.getD "") (password.getD "")
        (fullName.getD "") now freshToken freshId)] :=
    saveUser_append rfl (fun v hv => hfresh v hv)
  have hfind2 : findOneByEmail
      (db ++ [verifiedUserOf (signupNewUser (email.getD "")
        (password.getD "") (fullName.getD "") now freshToken freshId)])
      (email.getD "") =
      some (verifiedUserOf (signupNewUser (email.getD "") (password.getD "")
        (fullName.getD "") now freshToken freshId)) := by
    unfold findOneByEmail at hnew ⊢
    rw [find?_append_left_none hnew]
    exact List.find?_cons_of_pos _ (by simp [signupNewUser, verifiedUserOf])
  have hlogin : (login
      (db ++ [verifiedUserOf (signupNewUser (email.getD "")
        (password.getD "") (fullName.getD "") now freshToken freshId)])
      email password now3).resp.status = 200 ∧
      (login
        (db ++ [verifiedUserOf (signupNewUser (email.getD "")
          (password.getD "") (fullName.getD "") now freshToken freshId)])
        email password now3).resp.accessToken.isSome = true := by
    have hv1 : (verifiedUserOf (signupNewUser (email.getD "")
        (password.getD "") (fullName.getD "") now freshToken
        freshId)).isEmailVerified = true := rfl
    have hv2 : (verifiedUserOf (signupNewUser (email.getD "")
        (password.getD "") (fullName.getD "") now freshToken
        freshId)).password = bcryptHash (password.getD "") := rfl
    constructor <;>
      simp [login, hp1, hp2, hfind2, hv1, hv2, bcryptCompare]
  refine ⟨hstatus1, hstored, ?_, ?_, ?_⟩
  · rw [hdb1, hver]
  · rw [hdb1, hver, hsave]
    exact hlogin.1
  · rw [hdb1, hver, hsave]
    exact hlogin.2

/-- C7 witness: a concrete valid signup on the demo store, verified at a
later instant, then logged in with the original plaintext. -/
theorem signup_hash_and_login_roundtrip_witness :
    (signup demoDb (some "c@x.com") (some "longenough3") (some "longenough3")
      (some "C") 0 "tok7" 7).resp.status = 201 ∧
    (verifyEmail
      (signup demoDb (some "c@x.com") (some "longenough3") (some "longenough3")
        (some "C") 0 "tok7" 7).db
      (some "tok7") (some "c@x.com") 5).resp.status = 200 ∧
    (login
      (verifyEmail
        (signup demoDb (some "c@x.com") (some "longenough3")
          (some "longenough3") (some "C") 0 "tok7" 7).db
        (some "tok7") (some "c@x.com") 5).db
      (some "c@x.com") (some "longenough3") 9).resp.status = 200 := by
  have h := signup_hash_and_login_roundtrip demoDb (some "c@x.com")
    (some "longenough3") (some "longenough3") (some "C") 0 5 9 "tok7" 7
    (by decide) (by decide) (by decide) (by decide) rfl (by decide)
    (by decide) (by decide) (by decide) (by decide)
  exact ⟨h.1, h.2.2.1, h.2.2.2.1⟩

/-- C8: a refresh request whose cookie token verifies and whose subject
exists is answered 200 with a newly minted access token in the body and a
newly minted refresh token set as the cookie; an expired or otherwise
invalid cookie token is answered 401 with the refreshToken cookie
cleared. -/
theorem refresh_token_rotation (db : UserDb) (t : TokenInput) (now : Nat) :
    (∀ sub u, jwtVerify t REFRESH_TOKEN_SECRET now = .ok sub →
        findById db sub = some u →
        refreshTokenHandler db (some t) now =
          { resp := { status := 200, success := true,
                      accessToken := some (generateAccessToken u.id now) },
            cookie := .set (generateRefreshToken u.id now), db := db }) ∧
    (jwtVerify t REFRESH_TOKEN_SECRET now = .expiredError →
        refreshTokenHandler db (some t) now =
          { resp := { status := 401, success := false,
                      message := some "Refresh token expired" },
            cookie := .clear, db := db }) ∧
    (jwtVerify t REFRESH_TOKEN_SECRET now = .jsonWebTokenError →
        refreshTokenHandler db (some t) now =
          { resp := { status := 401, success := false,
                      message := some "Invalid refresh token" },
            cookie := .clear, db := db }) := by
  refine ⟨?_, ?_, ?_⟩
  · intro sub u hjwt hfind
    simp [refreshTokenHandler, hjwt, hfind]
  · intro hjwt
    simp [refreshTokenHandler, hjwt]
  · intro hjwt
    simp [refreshTokenHandler, hjwt]

/-- C8 witness: a valid refresh token for the verified demo account is
rotated, and an expired one clears the cookie with 401. -/
theorem refresh_token_rotation_witness :
    refreshTokenHandler demoDb
      (some (TokenInput.signed 2 REFRESH_TOKEN_SECRET 100)) 5 =
      { resp := { status := 200, success := true,
                  accessToken := some (generateAccessToken 2 5) },
        cookie := .set (generateRefreshToken 2 5), db := demoDb } ∧
    refreshTokenHandler demoDb
      (some (TokenInput.signed 2 REFRESH_TOKEN_SECRET 3)) 5 =
      { resp := { status := 401, success := false,
                  message := some "Refresh token expired" },
        cookie := .clear, db := demoDb } :=
  ⟨(refresh_token_rotation demoDb
      (TokenInput.signed 2 REFRESH_TOKEN_SECRET 100) 5).1 2 demoVerifiedUser
      (by decide) (by decide),
   (refresh_token_rotation demoDb
      (TokenInput.signed 2 REFRESH_TOKEN_SECRET 3) 5).2.1 (by decide)⟩

end ModernDesign
